import Mathlib

/-!
Shallow embedding of the AR business-card application (the unnamed page
script of ecalde/ar-business-cards) for checking its specification.

JavaScript values are modelled as follows: possibly-missing object fields
become `Option`, JS numbers become `ℚ` (the claims under check are about
control flow and exact constants, not floating-point rounding), a possibly
null entry of the `layers` array becomes `Option LayerSpec`, DOM element
collections become Lean lists, and the mutable page state (spawned
entities, the a-assets video elements, button/scene flags, the status
readout) becomes an explicit `World` record threaded through the event
handlers. `Math.sin` is kept abstract as a function parameter of the
animation tick. Fallible paths (`throw`) return `Except`.
-/

namespace ARCards

/-- Default card identifier, `DEFAULT_CARD_ID` in the source. -/
def DEFAULT_CARD_ID : String := "card_001"

/-- Maximum number of layers processed per card, `MAX_LAYERS` in the source. -/
def MAX_LAYERS : Nat := 5

/-- The `anim` object of a layer specification: optional `float` amplitude
and optional `spinY` rate (degrees per second). -/
structure AnimSpec where
  float : Option ℚ
  spinY : Option ℚ
deriving DecidableEq, Repr

/-- One entry of a card definition's `layers` array (when it is a non-null
object). All fields may be absent, as in the JSON. -/
structure LayerSpec where
  type : Option String
  src : Option String
  pos : Option (ℚ × ℚ × ℚ)
  scale : Option (ℚ × ℚ × ℚ)
  anim : Option AnimSpec
deriving DecidableEq, Repr

/-- One card definition from `cards.json`. The `layers` field is `none`
when absent or not an array; a `none` list entry models a null element. -/
structure CardDef where
  instagramUrl : Option String
  layers : Option (List (Option LayerSpec))
deriving DecidableEq, Repr

/-- JS truthiness of an optional string field: false exactly when the
field is absent (undefined) or the empty string. -/
def truthy : Option String → Bool
  | none => false
  | some s => !(s == "")

/-- JS `String.prototype.trim`: strip leading and trailing whitespace. -/
def jsTrim (s : String) : String :=
  String.mk (((s.toList.dropWhile Char.isWhitespace).reverse.dropWhile
    Char.isWhitespace).reverse)

/-- Embedding of `getCardIdFromUrl`: the `id` query parameter (absent or a
string), trimmed; absent or blank falls back to `DEFAULT_CARD_ID`.
Source: `return id && id.trim() ? id.trim() : DEFAULT_CARD_ID;`. -/
def getCardIdFromUrl (idParam : Option String) : String :=
  match idParam with
  | none => DEFAULT_CARD_ID
  | some id => if !(id == "") && !(jsTrim id == "") then jsTrim id else DEFAULT_CARD_ID

/-- Embedding of `clampLayers`: a non-array (`none`) becomes `[]`, an
array is truncated to the first `MAX_LAYERS` entries. -/
def clampLayers (layers : Option (List (Option LayerSpec))) : List (Option LayerSpec) :=
  match layers with
  | none => []
  | some l => l.take MAX_LAYERS

/-- The unknown-card-id notice written to the status readout by `main`. -/
def unknownIdStatus (cardId : String) : String :=
  "Unknown card id: " ++ cardId ++ ". Using default: " ++ DEFAULT_CARD_ID

/-- The message of the error thrown when even the default card is missing. -/
def fatalMsg : String := "cards.json must include at least the default card config."

/-- Status text produced by the `DOMContentLoaded` catch handler for a
startup error with the given message. -/
def errStatus (msg : String) : String := "Error: " ++ msg

/-- Embedding of the card-resolution part of `main`: look the requested id
up in the loaded configuration; on a miss fall back to the default id and
count one unknown-id notice; if even the default is absent, throw. The
returned `Nat` is the number of unknown-id notices written to the status
readout. -/
def resolveCard (config : List (String × CardDef)) (cardId : String) :
    Except String (CardDef × Nat) :=
  match config.lookup cardId with
  | some card => .ok (card, 0)
  | none =>
    match config.lookup DEFAULT_CARD_ID with
    | some d => .ok (d, 1)
    | none => .error fatalMsg

/-- The base64 alphabet used by `btoa`. -/
def base64Alphabet : String :=
  "ABCDEFGHIJKLMNOPQRSTUVWXYZabcdefghijklmnopqrstuvwxyz0123456789+/"

/-- Character of the base64 alphabet at the given index. -/
def b64Char (n : Nat) : Char := base64Alphabet.toList.getD n 'A'

/-- Base64-encode a list of byte values (standard alphabet, with
padding), as the browser `btoa` built-in does for its code units. -/
def b64Encode : List Nat → List Char
  | [] => []
  | [a] => [b64Char (a / 4), b64Char (a % 4 * 16), '=', '=']
  | [a, b] => [b64Char (a / 4), b64Char (a % 4 * 16 + b / 16), b64Char (b % 16 * 4), '=']
  | a :: b :: c :: rest =>
    b64Char (a / 4) :: b64Char (a % 4 * 16 + b / 16) ::
      b64Char (b % 16 * 4 + c / 64) :: b64Char (c % 64) :: b64Encode rest

/-- Embedding of the browser `btoa` on the strings this application feeds
it (resource URLs, whose characters are single code units below 256). -/
def btoa (s : String) : String := String.mk (b64Encode (s.toList.map Char.toNat))

/-- The deterministic id of the shared video element for a source URL,
`vid_` followed by the base64 of the URL with `=` padding removed.
Source: `const vidId = ...;` in `ensureVideoAsset`. -/
def vidIdOf (src : String) : String := "vid_" ++ (btoa src).replace "=" ""

/-- One `<video>` element living under `<a-assets>`: its DOM id, source
URL, and the playback state the application manipulates. -/
structure VideoElem where
  id : String
  src : String
  loop : Bool
  muted : Bool
  paused : Bool
  currentTime : ℚ
deriving DecidableEq, Repr

/-- Embedding of `ensureVideoAsset`, applied to the layer's `src` (the
callers only reach it with `src` present and non-empty). Returns the
handle (element id) and the updated a-assets video list: if an element
with the id already exists the list is unchanged, otherwise one hidden,
looping, muted, paused video element is appended. -/
def ensureVideoAsset (src : String) (vids : List VideoElem) : String × List VideoElem :=
  let vidId := vidIdOf src
  if vids.any (fun v => v.id == vidId) then (vidId, vids)
  else (vidId,
    vids ++ [{ id := vidId, src := src, loop := true, muted := true,
               paused := true, currentTime := 0 }])

/-- The attributes `makeEntityCommon` puts on the wrapper `a-entity`:
position, scale, the `layer-anim` component data when attached (its
`float` and `spinY` numbers), and the `always-on-top` tag. -/
structure EntityCommon where
  position : ℚ × ℚ × ℚ
  scale : ℚ × ℚ × ℚ
  layerAnim : Option (ℚ × ℚ)
  alwaysOnTop : Bool
deriving DecidableEq, Repr

/-- Embedding of `makeEntityCommon` (unnamed page script): default
position `[0, 0, -0.12]`, default scale `[0.2, 0.2, 0.2]`; the float
amplitude is `Number(anim.float || 0)`; spin is overridden to `0`
(`const spinY = 0;` with the source comment that spin is disabled
entirely), and the `layer-anim` component is attached only when the float
amplitude is truthy, always with `spinY: 0`. -/
def makeEntityCommon (layer : LayerSpec) : EntityCommon :=
  let anim := layer.anim.getD { float := none, spinY := none }
  let floatAmp := anim.float.getD 0
  { position := layer.pos.getD (0, 0, -(12 / 100 : ℚ)),
    scale := layer.scale.getD (1 / 5, 1 / 5, 1 / 5),
    layerAnim := if floatAmp ≠ 0 then some (floatAmp, 0) else none,
    alwaysOnTop := true }

/-- The child node a layer factory appends under the wrapper entity:
image and gif layers get a textured plane (with the cache-busting value
appended to the source URL), model layers a gltf node, video layers a
plane whose material src is the `#`-reference to the shared video
element. -/
inductive OverlayChild where
  | imagePlane (src : String) (bust : Nat)
  | modelNode (src : String)
  | videoPlane (videoRef : String)
deriving DecidableEq, Repr

/-- One spawned overlay entity as pushed onto `spawnedEntities`: its
`object3D.visible` flag, the `material` attribute on the entity itself
(never set by the factories — the material lives on the child plane), the
common attributes, and the appended child. -/
structure SpawnedEntity where
  visible : Bool
  material : Option String
  common : EntityCommon
  child : OverlayChild
deriving DecidableEq, Repr

/-- The mutable build state of `main`: the `spawnedEntities` array and
the `<a-assets>` video elements. -/
structure BuildState where
  spawned : List SpawnedEntity
  videos : List VideoElem
deriving DecidableEq, Repr

/-- Wrapper entity produced for a layer with the given child appended,
fresh entities being visible. -/
def mkSpawned (layer : LayerSpec) (child : OverlayChild) : SpawnedEntity :=
  { visible := true, material := none, common := makeEntityCommon layer, child := child }

/-- Embedding of `addImageLayer` (also used for gif layers): append a
textured plane under a common wrapper, push the wrapper. `bust` is the
`Date.now()` cache-buster appended to the texture URL. -/
def addImageLayer (bust : Nat) (layer : LayerSpec) (st : BuildState) : BuildState :=
  { st with spawned := st.spawned ++ [mkSpawned layer (.imagePlane (layer.src.getD "") bust)] }

/-- Embedding of `addModelLayer`: append a gltf node under a common
wrapper, push the wrapper. -/
def addModelLayer (layer : LayerSpec) (st : BuildState) : BuildState :=
  { st with spawned := st.spawned ++ [mkSpawned layer (.modelNode (layer.src.getD ""))] }

/-- Embedding of `addVideoLayer`: ensure the shared video asset for the
layer's src, append a plane whose material src references it, push the
wrapper. -/
def addVideoLayer (layer : LayerSpec) (st : BuildState) : BuildState :=
  let r := ensureVideoAsset (layer.src.getD "") st.videos
  { spawned := st.spawned ++ [mkSpawned layer (.videoPlane ("#" ++ r.1))],
    videos := r.2 }

/-- One iteration of the layer-building loop of `main`: a null entry or
one missing `type` or `src` is skipped; otherwise dispatch on `type`
(`image` and `gif` to the image factory, `model`, `video`); an
unrecognized type falls through every branch and does nothing. -/
def stepLayer (bust : Nat) (entry : Option LayerSpec) (st : BuildState) : BuildState :=
  match entry with
  | none => st
  | some layer =>
    if !truthy layer.type || !truthy layer.src then st
    else if layer.type == some "image" then addImageLayer bust layer st
    else if layer.type == some "gif" then addImageLayer bust layer st
    else if layer.type == some "model" then addModelLayer layer st
    else if layer.type == some "video" then addVideoLayer layer st
    else st

/-- Embedding of the `for (const layer of layers)` build loop of `main`. -/
def buildLayers (bust : Nat) : List (Option LayerSpec) → BuildState → BuildState
  | [], st => st
  | entry :: rest, st => buildLayers bust rest (stepLayer bust entry st)

/-- Embedding of `layers.some(l => l.type === "video")` inside
`showVideoButtonIfNeeded`. JS `Array.some` short-circuits left to right;
reading `.type` of a null entry throws, which the embedding renders as
`none`. -/
def someTypeVideo : List (Option LayerSpec) → Option Bool
  | [] => some false
  | none :: _ => none
  | some l :: rest => if l.type == some "video" then some true else someTypeVideo rest

/-- Embedding of `showVideoButtonIfNeeded`: the display style assigned to
the video button (`none` result models the thrown TypeError on a null
entry). -/
def showVideoButtonIfNeeded (layers : List (Option LayerSpec)) : Option String :=
  (someTypeVideo layers).map (fun b => if b then "inline-block" else "none")

/-- The per-entity transform state the `layer-anim` component mutates. -/
structure Object3D where
  posY : ℚ
  rotY : ℚ
deriving DecidableEq, Repr

/-- Embedding of the `layer-anim` component's `tick(t, dt)`: with `sin`
and `pi` abstracting `Math.sin` and `Math.PI`, component data `float` and
`spinY`, and the `baseY` captured at init, a positive float amplitude
sets `position.y` to a sine oscillation of elapsed seconds times 2.0,
and a non-zero `spinY` advances `rotation.y` by its degrees-per-second
rate. -/
def layerAnimTick (sin : ℚ → ℚ) (pi : ℚ) (float spinY baseY : ℚ)
    (t dt : ℚ) (o : Object3D) : Object3D :=
  let time := t / 1000
  let dts := dt / 1000
  let o1 := if float > 0 then { o with posY := baseY + sin (time * 2) * float } else o
  if spinY ≠ 0 then { o1 with rotY := o1.rotY + spinY * pi / 180 * dts } else o1

/-- The page state the lifecycle handlers manipulate: anchor visibility,
the spawned overlay entities, the a-assets video elements, whether the
WebGL scene output is shown, whether the MindAR tracker is running,
the two button disabled flags, whether the MindAR system is available on
the scene, and the status readout. -/
structure World where
  anchorVisible : Bool
  entities : List SpawnedEntity
  videos : List VideoElem
  sceneShown : Bool
  trackerRunning : Bool
  startDisabled : Bool
  stopDisabled : Bool
  mindarReady : Bool
  status : String
deriving DecidableEq, Repr

/-- Reset the playback state of a video element: pause, rewind to 0,
mute. -/
def resetVideo (v : VideoElem) : VideoElem :=
  { v with paused := true, currentTime := 0, muted := true }

/-- Reset the video element selected by a `#id` CSS selector, when it
exists (the `querySelector(mat.src)` branch of `hideAllOverlaysAndReset`). -/
def resetVideoBySelector (sel : String) (vids : List VideoElem) : List VideoElem :=
  vids.map (fun v => if ("#" ++ v.id) == sel then resetVideo v else v)

/-- Embedding of `hideAllOverlaysAndReset`: hide the anchor, hide every
spawned entity, for any spawned entity whose own `material` attribute has
a `#`-referencing src reset the referenced video (the factories never set
`material` on the wrapper entity itself, so this branch finds nothing),
and finally reset every `<a-assets>` video. -/
def hideAllOverlaysAndReset (w : World) : World :=
  let vids1 := w.entities.foldl
    (fun acc e =>
      match e.material with
      | some s => if s.startsWith "#" then resetVideoBySelector s acc else acc
      | none => acc)
    w.videos
  { w with
    anchorVisible := false,
    entities := w.entities.map (fun e => { e with visible := false }),
    videos := vids1.map resetVideo }

/-- Embedding of the `targetFound` listener: show the anchor and every
spawned overlay, update the status readout. -/
def onTargetFound (w : World) : World :=
  { w with
    status := "Target found ✅",
    anchorVisible := true,
    entities := w.entities.map (fun e => { e with visible := true }) }

/-- Embedding of the `targetLost` listener: update the status readout,
then hide and reset everything. -/
def onTargetLost (w : World) : World :=
  hideAllOverlaysAndReset { w with status := "Target lost…" }

/-- Embedding of the Start-AR click handler. `ok` tells whether the
`mindarSystem.start()` promise resolves; a rejection is caught and
surfaced as a status message. When the MindAR system is not available the
handler returns after only writing the not-ready status. -/
def startClick (ok : Bool) (w : World) : World :=
  let w0 := { w with status := "Starting AR…" }
  if !w.mindarReady then
    { w0 with status := "MindAR not ready yet. Try again in a moment." }
  else
    let w1 := hideAllOverlaysAndReset { w0 with sceneShown := true }
    if ok then
      { w1 with
        trackerRunning := true,
        startDisabled := true,
        stopDisabled := false,
        status := "AR started. Point at the EC logo." }
    else
      { w1 with status := "Could not start AR (camera permission?)." }

/-- Embedding of the Stop-AR click handler: without the MindAR system it
returns unchanged; otherwise it hides and resets all overlays, hides the
anchor, stops the tracker, hides the scene output (also at the two
trailing delays, with the same effect on this state), and flips the
button flags. -/
def stopClick (w : World) : World :=
  if !w.mindarReady then w
  else
    let w1 := hideAllOverlaysAndReset w
    let w2 := { w1 with anchorVisible := false }
    let w3 := { w2 with trackerRunning := false }
    let w4 := { w3 with sceneShown := false }
    { w4 with
      startDisabled := false,
      stopDisabled := true,
      status := "Stopped. Tap Start AR to run again." }

/-- A layer entry is valid when it is non-null and has truthy `type` and
`src` — the guard of the build loop. -/
def isValidEntry : Option LayerSpec → Bool
  | none => false
  | some l => truthy l.type && truthy l.src

/-- Summary of what one build-loop iteration pushes onto
`spawnedEntities` for a given entry (nothing, or one wrapper entity). -/
def spawnOf (bust : Nat) (entry : Option LayerSpec) : Option SpawnedEntity :=
  match entry with
  | none => none
  | some layer =>
    if !truthy layer.type || !truthy layer.src then none
    else if layer.type == some "image" then
      some (mkSpawned layer (.imagePlane (layer.src.getD "") bust))
    else if layer.type == some "gif" then
      some (mkSpawned layer (.imagePlane (layer.src.getD "") bust))
    else if layer.type == some "model" then
      some (mkSpawned layer (.modelNode (layer.src.getD "")))
    else if layer.type == some "video" then
      some (mkSpawned layer (.videoPlane ("#" ++ vidIdOf (layer.src.getD ""))))
    else none

lemma ensureVideoAsset_fst (src : String) (vids : List VideoElem) :
    (ensureVideoAsset src vids).1 = vidIdOf src := by
  simp only [ensureVideoAsset]
  split <;> rfl

lemma stepLayer_spawned (bust : Nat) (entry : Option LayerSpec) (st : BuildState) :
    (stepLayer bust entry st).spawned = st.spawned ++ (spawnOf bust entry).toList := by
  cases entry with
  | none => simp [stepLayer, spawnOf]
  | some layer =>
    simp only [stepLayer, spawnOf]
    repeat' split
    all_goals
      simp [addImageLayer, addModelLayer, addVideoLayer, ensureVideoAsset_fst]

lemma buildLayers_spawned (bust : Nat) :
    ∀ (layers : List (Option LayerSpec)) (st : BuildState),
      (buildLayers bust layers st).spawned
        = st.spawned ++ layers.filterMap (spawnOf bust) := by
  intro layers
  induction layers with
  | nil => intro st; simp [buildLayers]
  | cons e rest ih =>
    intro st
    rw [buildLayers, ih, stepLayer_spawned]
    cases h : spawnOf bust e <;> simp [List.filterMap_cons, h]

lemma stepLayer_invalid (bust : Nat) (entry : Option LayerSpec) (st : BuildState)
    (h : isValidEntry entry = false) : stepLayer bust entry st = st := by
  cases entry with
  | none => rfl
  | some layer =>
    simp only [isValidEntry, Bool.and_eq_false_iff] at h
    simp only [stepLayer]
    rcases h with h | h <;> simp [h]

lemma buildLayers_filter_valid (bust : Nat) :
    ∀ (layers : List (Option LayerSpec)) (st : BuildState),
      buildLayers bust (layers.filter isValidEntry) st = buildLayers bust layers st := by
  intro layers
  induction layers with
  | nil => intro st; rfl
  | cons e rest ih =>
    intro st
    by_cases h : isValidEntry e = true
    · rw [List.filter_cons_of_pos h, buildLayers, buildLayers, ih]
    · rw [List.filter_cons_of_neg (by simpa using h), buildLayers, ih,
        stepLayer_invalid bust e st (by simpa using h)]

lemma spawnOf_isSome_valid (bust : Nat) (entry : Option LayerSpec)
    (h : (spawnOf bust entry).isSome = true) : isValidEntry entry = true := by
  cases entry with
  | none => simp [spawnOf] at h
  | some layer =>
    simp only [spawnOf] at h
    simp only [isValidEntry]
    by_cases ht : truthy layer.type = true
    · by_cases hs : truthy layer.src = true
      · simp [ht, hs]
      · simp [Bool.eq_false_iff.mpr hs] at h
    · simp [Bool.eq_false_iff.mpr ht] at h

lemma length_filterMap_spawnOf_le_countP (bust : Nat) :
    ∀ layers : List (Option LayerSpec),
      (layers.filterMap (spawnOf bust)).length ≤ layers.countP isValidEntry := by
  intro layers
  induction layers with
  | nil => simp
  | cons e rest ih =>
    rw [List.filterMap_cons, List.countP_cons]
    cases h : spawnOf bust e with
    | none => exact le_trans ih (Nat.le_add_right _ _)
    | some a =>
      have hv : isValidEntry e = true := spawnOf_isSome_valid bust e (by simp [h])
      simp only [hv, if_pos]
      simpa using Nat.add_le_add_right ih 1

/-- A concrete image layer used to instantiate theorems. -/
def imgLayer : LayerSpec :=
  { type := some "image", src := some "a.png", pos := none, scale := none, anim := none }

/-- A concrete video layer used to instantiate theorems. -/
def vidLayer : LayerSpec :=
  { type := some "video", src := some "clip.mp4", pos := none, scale := none, anim := none }

/-- A concrete video layer with no `src`, used to instantiate theorems. -/
def vidLayerNoSrc : LayerSpec :=
  { type := some "video", src := none, pos := none, scale := none, anim := none }

/-- A concrete card definition used to instantiate theorems. -/
def demoCard : CardDef := { instagramUrl := none, layers := some [some imgLayer] }

/-- A concrete page state used to instantiate theorems: one spawned video
overlay and one unmuted, playing, mid-position shared video element. -/
def demoWorld : World :=
  { anchorVisible := true,
    entities := [mkSpawned vidLayer (.videoPlane ("#" ++ vidIdOf "clip.mp4"))],
    videos := [{ id := vidIdOf "clip.mp4", src := "clip.mp4", loop := true,
                 muted := false, paused := false, currentTime := 3 }],
    sceneShown := true,
    trackerRunning := true,
    startDisabled := true,
    stopDisabled := false,
    mindarReady := true,
    status := "AR started. Point at the EC logo." }

/-- Variant of the concrete page state in which MindAR is not ready. -/
def demoWorldNotReady : World :=
  { demoWorld with mindarReady := false, trackerRunning := false, startDisabled := false }

/-- C1: for every card configuration, the number of instantiated overlays
is at most min(5, number of layers with both `type` and `src` present),
and every layer missing either field produces zero overlays and raises no
error (dropping the invalid entries leaves the whole build result, spawned
entities and video assets alike, unchanged; the build function is total,
so no error is possible). -/
theorem C1_overlay_count_bound (ls : List (Option LayerSpec)) (bust : Nat)
    (vids : List VideoElem) :
    ((buildLayers bust (clampLayers (some ls))
        { spawned := [], videos := vids }).spawned.length
      ≤ min 5 (ls.countP isValidEntry)) ∧
    buildLayers bust ((clampLayers (some ls)).filter isValidEntry)
        { spawned := [], videos := vids }
      = buildLayers bust (clampLayers (some ls)) { spawned := [], videos := vids } := by
  constructor
  · rw [buildLayers_spawned]
    simp only [List.nil_append, clampLayers, MAX_LAYERS]
    refine Nat.le_min.mpr ⟨?_, ?_⟩
    · exact le_trans (List.length_filterMap_le _ _) (by simp [List.length_take_le])
    · exact le_trans (length_filterMap_spawnOf_le_countP bust _)
        ((List.take_sublist _ _).countP_le _)
  · exact buildLayers_filter_valid bust _ _

/-- C9: the five-layer clamp is applied to the raw layer list before
validity filtering — the spawned overlays are exactly the images of the
valid entries among the first five raw entries, so a valid entry at
position six or later is never instantiated even when earlier entries are
invalid. -/
theorem C9_clamp_before_validity (ls : List (Option LayerSpec)) (bust : Nat)
    (vids : List VideoElem) :
    (buildLayers bust (clampLayers (some ls)) { spawned := [], videos := vids }).spawned
      = (ls.take 5).filterMap (spawnOf bust) := by
  rw [buildLayers_spawned]
  simp [clampLayers, MAX_LAYERS]

/-- C8: the spawned overlays are in one-to-one correspondence with the
processed entries via `spawnOf`, and for a LayerSpec with both `type` and
`src` present, `spawnOf` yields exactly one overlay of the variant
matching the type: image and gif a textured plane, model a gltf node,
video a plane referencing the shared video element. -/
theorem C8_variant_per_valid_spec (layers : List (Option LayerSpec)) (bust : Nat)
    (st : BuildState) (l : LayerSpec) (s : String)
    (hsrc : l.src = some s) (hne : s ≠ "") :
    (buildLayers bust layers st).spawned = st.spawned ++ layers.filterMap (spawnOf bust) ∧
    (l.type = some "image" → spawnOf bust (some l) = some (mkSpawned l (.imagePlane s bust))) ∧
    (l.type = some "gif" → spawnOf bust (some l) = some (mkSpawned l (.imagePlane s bust))) ∧
    (l.type = some "model" → spawnOf bust (some l) = some (mkSpawned l (.modelNode s))) ∧
    (l.type = some "video" →
      spawnOf bust (some l) = some (mkSpawned l (.videoPlane ("#" ++ vidIdOf s)))) := by
  refine ⟨buildLayers_spawned bust layers st, ?_, ?_, ?_, ?_⟩ <;>
    intro ht <;> simp [spawnOf, ht, hsrc, truthy, hne]

/-- Witness for C8 at a concrete valid image layer. -/
theorem C8_variant_per_valid_spec_witness :
    (buildLayers 7 [some imgLayer] { spawned := [], videos := [] }).spawned
      = [] ++ [some imgLayer].filterMap (spawnOf 7) ∧
    spawnOf 7 (some imgLayer) = some (mkSpawned imgLayer (.imagePlane "a.png" 7)) := by
  have h := C8_variant_per_valid_spec [some imgLayer] 7
    { spawned := [], videos := [] } imgLayer "a.png" rfl (by decide)
  exact ⟨h.1, h.2.1 rfl⟩

/-- C10: the video-unmute control is decided by `type === "video"` over
the clamped raw layer list before `src` validation — a layer with type
video and no truthy `src` makes the control visible even though the build
loop creates zero overlays and zero shared video elements for it. -/
theorem C10_video_button_before_src_validation (l : LayerSpec) (bust : Nat)
    (vids : List VideoElem)
    (hty : l.type = some "video") (hsrc : truthy l.src = false) :
    showVideoButtonIfNeeded (clampLayers (some [some l])) = some "inline-block" ∧
    buildLayers bust (clampLayers (some [some l])) { spawned := [], videos := vids }
      = { spawned := [], videos := vids } := by
  have hc : clampLayers (some [some l]) = [some l] := by simp [clampLayers, MAX_LAYERS]
  rw [hc]
  constructor
  · simp [showVideoButtonIfNeeded, someTypeVideo, hty]
  · simp [buildLayers, stepLayer, hsrc]

/-- Witness for C10 at a concrete src-less video layer. -/
theorem C10_video_button_before_src_validation_witness :
    showVideoButtonIfNeeded (clampLayers (some [some vidLayerNoSrc])) = some "inline-block" ∧
    buildLayers 0 (clampLayers (some [some vidLayerNoSrc])) { spawned := [], videos := [] }
      = { spawned := [], videos := [] } :=
  C10_video_button_before_src_validation vidLayerNoSrc 0 [] rfl rfl

lemma all_hidden_map (es : List SpawnedEntity) :
    (es.map (fun e => { e with visible := false })).all (fun e => !e.visible) = true := by
  rw [List.all_map]
  refine List.all_eq_true.mpr ?_
  intro e _
  rfl

lemma all_shown_map (es : List SpawnedEntity) :
    (es.map (fun e => { e with visible := true })).all (fun e => e.visible) = true := by
  rw [List.all_map]
  refine List.all_eq_true.mpr ?_
  intro e _
  rfl

lemma all_reset_map (vs : List VideoElem) :
    (vs.map resetVideo).all
      (fun v => v.paused && v.muted && decide (v.currentTime = 0)) = true := by
  rw [List.all_map]
  refine List.all_eq_true.mpr ?_
  intro v _
  simp [resetVideo, Function.comp]

lemma all_hidden_hideAll (w : World) :
    ((hideAllOverlaysAndReset w).entities.all (fun e => !e.visible)) = true := by
  simp only [hideAllOverlaysAndReset]
  exact all_hidden_map _

lemma all_reset_hideAll (w : World) :
    ((hideAllOverlaysAndReset w).videos.all
      (fun v => v.paused && v.muted && decide (v.currentTime = 0))) = true := by
  simp only [hideAllOverlaysAndReset]
  exact all_reset_map _

lemma stopClick_entities (w : World) (hm : w.mindarReady = true) :
    (stopClick w).entities = (hideAllOverlaysAndReset w).entities := by
  simp [stopClick, hm]

lemma stopClick_videos (w : World) (hm : w.mindarReady = true) :
    (stopClick w).videos = (hideAllOverlaysAndReset w).videos := by
  simp [stopClick, hm]

/-- C3: after the Stop-AR handler completes (it does anything only when
the MindAR system is available), every spawned overlay entity is
invisible, the anchor is hidden, and every a-assets video element is
paused, rewound to position 0, and muted. -/
theorem C3_stop_hides_and_resets (w : World) (hm : w.mindarReady = true) :
    (stopClick w).anchorVisible = false ∧
    ((stopClick w).entities.all (fun e => !e.visible)) = true ∧
    ((stopClick w).videos.all
        (fun v => v.paused && v.muted && decide (v.currentTime = 0))) = true := by
  refine ⟨?_, ?_, ?_⟩
  · simp [stopClick, hm]
  · rw [stopClick_entities w hm]
    exact all_hidden_hideAll _
  · rw [stopClick_videos w hm]
    exact all_reset_hideAll _

/-- Witness for C3 at a concrete page state with a playing, unmuted
video. -/
theorem C3_stop_hides_and_resets_witness :
    (stopClick demoWorld).anchorVisible = false ∧
    ((stopClick demoWorld).entities.all (fun e => !e.visible)) = true ∧
    ((stopClick demoWorld).videos.all
        (fun v => v.paused && v.muted && decide (v.currentTime = 0))) = true :=
  C3_stop_hides_and_resets demoWorld rfl

/-- C4: after the `targetFound` listener runs, the anchor and every
spawned overlay are visible; after a subsequent `targetLost`, the anchor
and every spawned overlay are hidden and every a-assets video element is
paused, rewound to 0, and re-muted. -/
theorem C4_target_found_then_lost (w : World) :
    (onTargetFound w).anchorVisible = true ∧
    ((onTargetFound w).entities.all (fun e => e.visible)) = true ∧
    (onTargetLost (onTargetFound w)).anchorVisible = false ∧
    ((onTargetLost (onTargetFound w)).entities.all (fun e => !e.visible)) = true ∧
    ((onTargetLost (onTargetFound w)).videos.all
        (fun v => v.paused && v.muted && decide (v.currentTime = 0))) = true := by
  refine ⟨rfl, all_shown_map _, rfl, ?_, ?_⟩
  · exact all_hidden_hideAll _
  · exact all_reset_hideAll _

/-- A concrete layer with float amplitude 1 and a configured spin of 7
degrees per second, used to instantiate theorems. -/
def animLayer : LayerSpec :=
  { type := some "image", src := some "a.png", pos := none, scale := none,
    anim := some { float := some 1, spinY := some 7 } }

/-- C5: whatever `anim.spinY` a layer configures, the `layer-anim`
component the wrapper entity carries (when it carries one at all) has
spin 0, so a tick never changes the rotation; a positive float amplitude
makes a tick set the y position to a sine oscillation of that amplitude
about the base y, with argument twice the elapsed seconds (2.0 radians
per rendered second); without a positive amplitude a tick changes
nothing. -/
theorem C5_spin_disabled_float_oscillates (layer : LayerSpec) (sin : ℚ → ℚ) (pi : ℚ)
    (baseY t dt : ℚ) (o : Object3D) (fa sy : ℚ)
    (h : (makeEntityCommon layer).layerAnim = some (fa, sy)) :
    sy = 0 ∧
    (layerAnimTick sin pi fa sy baseY t dt o).rotY = o.rotY ∧
    (fa > 0 → (layerAnimTick sin pi fa sy baseY t dt o).posY
        = baseY + sin (t / 1000 * 2) * fa) ∧
    (¬fa > 0 → layerAnimTick sin pi fa sy baseY t dt o = o) := by
  have hsy : sy = 0 := by
    simp only [makeEntityCommon] at h
    split at h
    · exact (Prod.mk.injEq _ _ _ _ ▸ (Option.some.injEq _ _ ▸ h)).2.symm
    · exact absurd h (by simp)
  subst hsy
  refine ⟨rfl, ?_, ?_, ?_⟩
  · simp only [layerAnimTick]
    rw [if_neg (show ¬((0 : ℚ) ≠ 0) by simp)]
    split <;> rfl
  · intro hfa
    simp [layerAnimTick, hfa]
  · intro hfa
    simp [layerAnimTick, hfa]

/-- Witness for C5 at a concrete layer configuring spin 7 and float 1. -/
theorem C5_spin_disabled_float_oscillates_witness :
    (0 : ℚ) = 0 ∧
    (layerAnimTick (fun x => x) 3 1 0 5 1000 16 { posY := 9, rotY := 4 }).rotY = 4 ∧
    ((1 : ℚ) > 0 → (layerAnimTick (fun x => x) 3 1 0 5 1000 16 { posY := 9, rotY := 4 }).posY
        = 5 + (fun x : ℚ => x) (1000 / 1000 * 2) * 1) ∧
    (¬(1 : ℚ) > 0 → layerAnimTick (fun x => x) 3 1 0 5 1000 16 { posY := 9, rotY := 4 }
        = { posY := 9, rotY := 4 }) :=
  C5_spin_disabled_float_oscillates animLayer (fun x => x) 3 5 1000 16
    { posY := 9, rotY := 4 } 1 0 (by simp [makeEntityCommon, animLayer])

/-- C6: the requested card id is the trimmed `id` query parameter with
the default id substituted when the parameter is missing or blank; an id
present in the configuration resolves to its own definition with no
unknown-id notice; an absent id falls back to the default definition with
the unknown-id notice emitted exactly once; when even the default id is
absent, resolution throws the descriptive fatal message, which the
`DOMContentLoaded` catch handler writes to the status readout. -/
theorem C6_card_resolution (p : Option String) (s : String)
    (config : List (String × CardDef)) (card d : CardDef) :
    (getCardIdFromUrl none = DEFAULT_CARD_ID) ∧
    (jsTrim s = "" → getCardIdFromUrl (some s) = DEFAULT_CARD_ID) ∧
    (jsTrim s ≠ "" → getCardIdFromUrl (some s) = jsTrim s) ∧
    (config.lookup (getCardIdFromUrl p) = some card →
      resolveCard config (getCardIdFromUrl p) = .ok (card, 0)) ∧
    (config.lookup (getCardIdFromUrl p) = none →
      config.lookup DEFAULT_CARD_ID = some d →
      resolveCard config (getCardIdFromUrl p) = .ok (d, 1)) ∧
    (config.lookup (getCardIdFromUrl p) = none →
      config.lookup DEFAULT_CARD_ID = none →
      resolveCard config (getCardIdFromUrl p) = .error fatalMsg ∧
      errStatus fatalMsg
        = "Error: cards.json must include at least the default card config.") := by
  refine ⟨rfl, ?_, ?_, ?_, ?_, ?_⟩
  · intro h
    simp [getCardIdFromUrl, h]
  · intro h
    have hs : ¬s = "" := by
      intro e
      exact h (by rw [e]; rfl)
    simp [getCardIdFromUrl, h, hs]
  · intro h
    simp [resolveCard, h]
  · intro h hd
    simp [resolveCard, h, hd]
  · intro h hd
    exact ⟨by simp [resolveCard, h, hd], rfl⟩

/-- Witness for C6: a blank id falls back to the default, and a missing
id resolves to the default definition with one notice. -/
theorem C6_card_resolution_witness :
    getCardIdFromUrl (some "  ") = DEFAULT_CARD_ID ∧
    resolveCard [("card_001", demoCard)] (getCardIdFromUrl (some "card_999"))
      = .ok (demoCard, 1) ∧
    resolveCard [] (getCardIdFromUrl none) = .error fatalMsg := by
  refine ⟨?_, ?_, ?_⟩
  · exact (C6_card_resolution none "  " [] demoCard demoCard).2.1 (by decide)
  · exact (C6_card_resolution (some "card_999") "x" [("card_001", demoCard)]
      demoCard demoCard).2.2.2.2.1 (by decide) (by decide)
  · exact ((C6_card_resolution none "x" [] demoCard demoCard).2.2.2.2.2
      (by decide) (by decide)).1

/-- C7: clicking Start-AR while MindAR is not yet available changes
neither button state nor the tracker and reports the not-ready status; a
retry once MindAR is available and the tracker start resolves reveals the
transition to Scanning (tracker running, buttons flipped); a rejected
tracker start is caught, surfaced as a non-fatal status message, and
changes neither button state nor the tracker. -/
theorem C7_start_not_ready_then_retry (w : World) (ok : Bool)
    (hm : w.mindarReady = false) :
    ((startClick ok w).startDisabled = w.startDisabled ∧
     (startClick ok w).stopDisabled = w.stopDisabled ∧
     (startClick ok w).trackerRunning = w.trackerRunning ∧
     (startClick ok w).status = "MindAR not ready yet. Try again in a moment.") ∧
    (∀ w2 : World, w2.mindarReady = true →
     (startClick true w2).trackerRunning = true ∧
     (startClick true w2).startDisabled = true ∧
     (startClick true w2).stopDisabled = false ∧
     (startClick true w2).status = "AR started. Point at the EC logo." ∧
     (startClick false w2).trackerRunning = w2.trackerRunning ∧
     (startClick false w2).startDisabled = w2.startDisabled ∧
     (startClick false w2).stopDisabled = w2.stopDisabled ∧
     (startClick false w2).status = "Could not start AR (camera permission?).") := by
  constructor
  · refine ⟨?_, ?_, ?_, ?_⟩ <;> simp [startClick, hm]
  · intro w2 hm2
    refine ⟨?_, ?_, ?_, ?_, ?_, ?_, ?_, ?_⟩ <;>
      simp [startClick, hm2, hideAllOverlaysAndReset]

/-- Witness for C7 at a concrete not-ready page state, retried on the
same state with MindAR made available. -/
theorem C7_start_not_ready_then_retry_witness :
    ((startClick true demoWorldNotReady).startDisabled
        = demoWorldNotReady.startDisabled ∧
     (startClick true demoWorldNotReady).stopDisabled
        = demoWorldNotReady.stopDisabled ∧
     (startClick true demoWorldNotReady).trackerRunning
        = demoWorldNotReady.trackerRunning ∧
     (startClick true demoWorldNotReady).status
        = "MindAR not ready yet. Try again in a moment.") ∧
    (startClick true { demoWorldNotReady with mindarReady := true }).trackerRunning
      = true :=
  have h := C7_start_not_ready_then_retry demoWorldNotReady true rfl
  ⟨h.1, (h.2 { demoWorldNotReady with mindarReady := true } rfl).1⟩

/-- The video element `ensureVideoAsset` creates for a source URL on a
miss: hidden under a-assets, looping, muted, paused at 0. -/
def newVideoElem (src : String) : VideoElem :=
  { id := vidIdOf src, src := src, loop := true, muted := true,
    paused := true, currentTime := 0 }

/-- C2: `ensureVideoAsset` is idempotent — a second call with the same
source URL returns the same handle and leaves the a-assets videos
unchanged, and starting from a document with no element of that id the
two calls create exactly one video element with it; consequently two
video layers sharing one `src` spawn two overlays both referencing the
same shared video element while creating it only once. -/
theorem C2_ensure_resource_idempotent (src : String) (vids : List VideoElem)
    (lv : LayerSpec) (bust : Nat)
    (hfresh : vids.all (fun v => !(v.id == vidIdOf src)) = true)
    (hty : lv.type = some "video") (hsrc : lv.src = some src) (hne : src ≠ "") :
    (ensureVideoAsset src (ensureVideoAsset src vids).2).1
      = (ensureVideoAsset src vids).1 ∧
    (ensureVideoAsset src (ensureVideoAsset src vids).2).2
      = (ensureVideoAsset src vids).2 ∧
    ((ensureVideoAsset src vids).2.countP (fun v => v.id == vidIdOf src)) = 1 ∧
    (buildLayers bust [some lv, some lv] { spawned := [], videos := vids }).spawned
      = [mkSpawned lv (.videoPlane ("#" ++ vidIdOf src)),
         mkSpawned lv (.videoPlane ("#" ++ vidIdOf src))] ∧
    (buildLayers bust [some lv, some lv] { spawned := [], videos := vids }).videos
      = (ensureVideoAsset src vids).2 := by
  have hnot : ∀ v ∈ vids, ¬(v.id == vidIdOf src) = true := by
    intro v hv
    have := List.all_eq_true.mp hfresh v hv
    simpa using this
  have hany : vids.any (fun v => v.id == vidIdOf src) = false := by
    rw [List.any_eq_false]
    exact hnot
  have h1 : ensureVideoAsset src vids = (vidIdOf src, vids ++ [newVideoElem src]) := by
    simp [ensureVideoAsset, newVideoElem, hany]
  have hany2 : (vids ++ [newVideoElem src]).any
      (fun v => v.id == vidIdOf src) = true := by
    simp [List.any_append, newVideoElem]
  have h2 : ensureVideoAsset src (vids ++ [newVideoElem src])
      = (vidIdOf src, vids ++ [newVideoElem src]) := by
    simp [ensureVideoAsset, hany2]
  have hcount : (vids ++ [newVideoElem src]).countP
      (fun v => v.id == vidIdOf src) = 1 := by
    rw [List.countP_append, List.countP_eq_zero.mpr hnot]
    simp [newVideoElem]
  have hstep : ∀ st : BuildState, stepLayer bust (some lv) st = addVideoLayer lv st := by
    intro st
    simp [stepLayer, hty, hsrc, truthy, hne]
  have hbuild : buildLayers bust [some lv, some lv] { spawned := [], videos := vids }
      = addVideoLayer lv (addVideoLayer lv { spawned := [], videos := vids }) := by
    rw [buildLayers, hstep, buildLayers, hstep, buildLayers]
  have hv1 : addVideoLayer lv { spawned := [], videos := vids }
      = { spawned := [mkSpawned lv (.videoPlane ("#" ++ vidIdOf src))],
          videos := (ensureVideoAsset src vids).2 } := by
    simp [addVideoLayer, hsrc, ensureVideoAsset_fst]
  refine ⟨?_, ?_, ?_, ?_, ?_⟩
  · rw [h1, h2]
  · rw [h1, h2]
  · rw [h1]
    exact hcount
  · rw [hbuild, hv1]
    rw [h1]
    simp [addVideoLayer, hsrc, h2, ensureVideoAsset_fst]
  · rw [hbuild, hv1]
    rw [h1]
    simp [addVideoLayer, hsrc, h2]

/-- Witness for C2 at the URL of the shared clip, starting from an empty
assets container. -/
theorem C2_ensure_resource_idempotent_witness :
    (ensureVideoAsset "clip.mp4" (ensureVideoAsset "clip.mp4" []).2).1
      = (ensureVideoAsset "clip.mp4" []).1 ∧
    (ensureVideoAsset "clip.mp4" (ensureVideoAsset "clip.mp4" []).2).2
      = (ensureVideoAsset "clip.mp4" []).2 ∧
    ((ensureVideoAsset "clip.mp4" []).2.countP
        (fun v => v.id == vidIdOf "clip.mp4")) = 1 ∧
    (buildLayers 0 [some vidLayer, some vidLayer]
        { spawned := [], videos := [] }).spawned
      = [mkSpawned vidLayer (.videoPlane ("#" ++ vidIdOf "clip.mp4")),
         mkSpawned vidLayer (.videoPlane ("#" ++ vidIdOf "clip.mp4"))] ∧
    (buildLayers 0 [some vidLayer, some vidLayer]
        { spawned := [], videos := [] }).videos
      = (ensureVideoAsset "clip.mp4" []).2 :=
  C2_ensure_resource_idempotent "clip.mp4" [] vidLayer 0 rfl rfl rfl (by decide)

end ARCards
